import Mathlib

/-!
# Verification of the `EbookCentralPortal` client (`library_manager.py`)

A shallow embedding of the portal client of this repository.  Strings are
modelled as `List Char` (Python `str` values restricted to the operations the
source uses: substring tests, `strip`, `lower`, `endswith`, concatenation,
slicing).  The HTTP layer is modelled by "world" records that supply, for each
request the source issues, either a response or a raised exception
(`requests.Timeout`, `requests.ConnectionError`, or another `Exception`,
each carrying its `str(e)` text).  `BeautifulSoup` is an external library;
each soup query the source performs (`find_all('a')`,
`find('a', class_='auth-meta-link')`, …) becomes one field of an abstract
parsed-document record supplied by the world.  Side effects (files written,
requests issued) are returned explicitly so that frame conditions can be
stated.
-/

/-- Python `str` modelled as a list of characters. -/
abbrev PyStr := List Char

/-- Coerce a Lean string literal to the model type. -/
def pys (x : String) : PyStr := x.data

/-- Python whitespace test (`str.strip` / `\s`), restricted to ASCII. -/
def isPySpace (c : Char) : Bool :=
  c = ' ' || c = '\t' || c = '\n' || c = '\r' || c = '\x0b' || c = '\x0c'

/-- `str.strip()`: drop whitespace from both ends. -/
def pyStrip (x : PyStr) : PyStr :=
  ((x.dropWhile isPySpace).reverse.dropWhile isPySpace).reverse

/-- `str.lower()` (ASCII; the source only compares ASCII markers). -/
def pyLower (x : PyStr) : PyStr := x.map Char.toLower

/-- Python `pat in s` substring test. -/
def containsSub (pat : PyStr) : PyStr → Bool
  | [] => pat.isPrefixOf ([] : PyStr)
  | s@(_ :: rest) => pat.isPrefixOf s || containsSub pat rest

/-- `str.startswith`. -/
def pyStartsWith (pat x : PyStr) : Bool := pat.isPrefixOf x

/-- `str.endswith`. -/
def pyEndsWith (pat x : PyStr) : Bool := pat.isSuffixOf x

/-- `re.search(lit ++ "([^bad]+)", s)`: first position where the literal is
followed by at least one character accepted by `good`; the capture is the
maximal run of accepted characters (greedy `+`). `none` when no match. -/
def searchCapture (lit : PyStr) (good : Char → Bool) : PyStr → Option PyStr
  | [] => none
  | s@(_ :: rest) =>
    if lit.isPrefixOf s then
      let cap := (s.drop lit.length).takeWhile good
      if cap.isEmpty then searchCapture lit good rest else some cap
    else searchCapture lit good rest

/-- Structural worker for `findAllCaptures`; the fuel bounds the number of
scan steps (each step consumes at least one character). -/
def findAllGo (lit : PyStr) (good : Char → Bool) : Nat → PyStr → List PyStr
  | 0, _ => []
  | _ + 1, [] => []
  | fuel + 1, c :: rest =>
    if lit.isPrefixOf (c :: rest) then
      if (((c :: rest).drop lit.length).takeWhile good).isEmpty then
        findAllGo lit good fuel rest
      else
        ((c :: rest).drop lit.length).takeWhile good ::
          findAllGo lit good fuel
            (((c :: rest).drop lit.length).drop
              ((((c :: rest).drop lit.length).takeWhile good).length))
    else findAllGo lit good fuel rest

/-- `re.findall(lit ++ "([^bad]+)", s)`: all non-overlapping matches, left to
right, continuing after the end of each match.  Every scan step shortens the
remaining input, so `s.length + 1` fuel always suffices. -/
def findAllCaptures (lit : PyStr) (good : Char → Bool) (s : PyStr) :
    List PyStr :=
  findAllGo lit good (s.length + 1) s

/-- Decimal rendering of a status code, as Python `str.format` would print a
nonnegative int (`Nat.repr` agrees with Python for naturals). -/
def natStr (n : Nat) : PyStr := (Nat.repr n).data

/-! ## The HTTP layer

Each request the source issues either yields a response or raises.  The
source distinguishes `requests.Timeout`, `requests.ConnectionError` and all
other exceptions; every exception carries its `str(e)` text. -/

/-- Which exception class the HTTP layer raised. -/
inductive ExKind where
  | timeout
  | connection
  | other
deriving DecidableEq, Repr

/-- A raised exception: its class and its `str(e)` text. -/
structure Exn where
  kind : ExKind
  msg : PyStr
deriving DecidableEq, Repr

/-- Outcome of one HTTP call. -/
abbrev Net (α : Type) := Except Exn α

/-- A `requests` response, restricted to the fields the source reads. -/
structure HttpResp where
  status_code : Nat
  url : PyStr
  text : PyStr
deriving DecidableEq, Repr

/-- Tags identifying each outgoing request the client can issue, so frame
properties ("no search request was performed") can be stated. -/
inductive ReqTag where
  | connHome      -- `test_connection`: GET home.action
  | connLogin     -- `test_connection`: POST EZproxy login
  | home          -- `search_book`: GET home.action (cookie warm-up)
  | searchApi     -- `search_book`: GET search.action
  | searchPage    -- `search_book`: GET /ebc/ search page
  | dlPage        -- `download_book`: GET download page
  | dlConfirm     -- `download_book`: submit download form
  | dlFile        -- `download_book`: streamed GET of the file
deriving DecidableEq, Repr

/-! ## `test_connection` and `login` (library_manager.py lines 60-180)

The world supplies the two responses.  Credentials are only placed in the
POST body (they never steer control flow inside `test_connection`), so they
are absorbed into the world's `loginResp`. -/

/-- The two responses `test_connection` can receive. -/
structure ConnWorld where
  homeResp : Net HttpResp
  loginResp : Net HttpResp
deriving Repr

/-- The `result` dict built by `test_connection`. -/
structure ConnResult where
  success : Bool
  message : PyStr
  url : PyStr
  status_code : Nat
  response_text : PyStr
  is_logged_in : Bool
deriving DecidableEq, Repr

/-- `test_connection` outcome: the returned dict, the client flag
`self.is_logged_in` after the call, and the requests issued. -/
structure ConnOutcome where
  result : ConnResult
  is_logged_in : Bool
  reqs : List ReqTag
deriving DecidableEq, Repr

/-- The `except` clauses of `test_connection` (lines 151-165): the partially
built `result` keeps the fields assigned before the raise. -/
def connExnResult (r : ConnResult) (e : Exn) : ConnResult :=
  match e.kind with
  | .timeout => { r with success := false, message := pys "Connection timed out" }
  | .connection =>
      { r with success := false, message := pys "Connection error (check network)" }
  | .other => { r with success := false, message := pys "Error: " ++ e.msg }

/-- The `success_indicators` disjunction (lines 128-134). -/
def loginIndicators (lr : HttpResp) : Bool :=
  containsSub (pys "ebookcentral.proquest.com/lib/ridley/home.action") lr.url ||
  containsSub (pys "Authentication successful") lr.text ||
  containsSub (pys "My Bookshelf") lr.text ||
  containsSub (pys "/ebc/") lr.url ||
  (containsSub (pys "ProQuest Ebook Central") lr.text &&
    containsSub (pys "Bookshelf") lr.text)

/-- `test_connection` (lines 60-165).  `li` is `self.is_logged_in` on entry;
on an exception the flag is left as it was. -/
def test_connection (li : Bool) (w : ConnWorld) : ConnOutcome :=
  let r0 : ConnResult :=
    { success := false, message := [], url := [], status_code := 0
      response_text := [], is_logged_in := false }
  match w.homeResp with
  | .error e => ⟨connExnResult r0 e, li, [.connHome]⟩
  | .ok home =>
    let r1 := { r0 with status_code := home.status_code, url := home.url }
    if containsSub (pys "Ebook Central") home.text &&
        containsSub (pys "Bookshelf") home.text then
      ⟨{ r1 with success := true
                 message := pys "Already logged in (direct access)"
                 is_logged_in := true }, true, [.connHome]⟩
    else
      match w.loginResp with
      | .error e => ⟨connExnResult r1 e, li, [.connHome, .connLogin]⟩
      | .ok lr =>
        let snippet :=
          if 500 < lr.text.length then lr.text.take 500 ++ pys "..." else lr.text
        let r2 := { r1 with status_code := lr.status_code, url := lr.url
                            response_text := snippet }
        if loginIndicators lr then
          ⟨{ r2 with success := true, message := pys "Login successful"
                     is_logged_in := true }, true, [.connHome, .connLogin]⟩
        else
          ⟨{ r2 with success := false
                     message := pys "Login failed. Check credentials."
                     is_logged_in := false }, false, [.connHome, .connLogin]⟩

/-- `login` (lines 167-180): runs `test_connection` and returns its `success`
field; the outer `except` is unreachable because `test_connection` catches
everything itself. -/
def login (li : Bool) (w : ConnWorld) : Bool × Bool × List ReqTag :=
  let o := test_connection li w
  (o.result.success, o.is_logged_in, o.reqs)

/-! ## `search_book` (library_manager.py lines 182-368)

`BeautifulSoup` is external; the world supplies, for each parsed page, the
answers to exactly the queries the source makes of the soup. -/

/-- The single-quote character (ASCII 39), used by the `docID` findall
character class. -/
def squote : Char := Char.ofNat 39

/-- One `<a>` element as the source queries it: `get('href', '')`,
`get_text()`, `find('h3')` (a descendant h3) and `find_next('h3')` (the next
h3 in document order), the latter two by their `get_text()`. -/
structure ALink where
  href : PyStr
  text : PyStr
  innerH3 : Option PyStr
  nextH3 : Option PyStr
deriving DecidableEq, Repr

/-- A parsed page, restricted to the queries `search_book` performs:
`find_all('a')`, `find('a', class_='auth-meta-link')`,
`find('h3', class_='title')` and `find('h3')` (texts, `none` when the
element is absent). -/
structure Soup where
  anchors : List ALink
  authMetaLink : Option PyStr
  h3Title : Option PyStr
  h3First : Option PyStr
deriving DecidableEq, Repr

/-- The result dict of `search_book`; keys absent from a given branch's
dict are `none`. -/
structure SearchResult where
  status : PyStr
  title : Option PyStr := none
  author : Option PyStr := none
  format : Option PyStr := none
  view_url : Option PyStr := none
  download_url : Option PyStr := none
  book_id : Option PyStr := none
  ebook_id : Option PyStr := none
  message : Option PyStr := none
  publisher : Option PyStr := none
  year : Option PyStr := none
  isbn : Option PyStr := none
  eisbn : Option PyStr := none
deriving DecidableEq, Repr

/-- Outcome of `search_book`: the returned dict, `self.is_logged_in` after
the call, the files written (path, content), and the requests issued. -/
structure SearchOutcome where
  result : SearchResult
  is_logged_in : Bool
  files : List (PyStr × PyStr)
  reqs : List ReqTag
deriving DecidableEq, Repr

/-- The responses and parsed pages `search_book` can consume. -/
structure SearchWorld where
  conn : ConnWorld
  homeResp : Net HttpResp
  searchResp : Net HttpResp
  searchSoup : Soup
  pageResp : Net HttpResp
  pageSoup : Soup
deriving Repr

/-- `{base_url}/lib/{lib_id}/detail.action?docID={book_id}`. -/
def detailUrl (book_id : PyStr) : PyStr :=
  pys "https://ebookcentral.proquest.com/lib/ridley/detail.action?docID=" ++
    book_id

/-- The opening curly brace character. -/
def obrace : Char := Char.ofNat 123

/-- The closing curly brace character. -/
def cbrace : Char := Char.ofNat 125

/-- One position of the `window.__INITIAL_STATE__` regex: the literal, then
optional whitespace, an equals sign, optional whitespace, an opening brace,
then (non-greedy, DOTALL) anything up to a later closing brace followed by a
semicolon. -/
def initStateAt (s : PyStr) : Bool :=
  if (pys "window.__INITIAL_STATE__").isPrefixOf s then
    match (s.drop (pys "window.__INITIAL_STATE__").length).dropWhile isPySpace with
    | '=' :: r2 =>
      match r2.dropWhile isPySpace with
      | c :: r3 => c = obrace && containsSub [cbrace, ';'] r3
      | [] => false
    | _ => false
  else false

/-- Whether `re.findall` on the `window.__INITIAL_STATE__` pattern (line 336)
finds any match (only its truthiness is used by the source). -/
def hasInitialState : PyStr → Bool
  | [] => false
  | s@(_ :: rest) => initStateAt s || hasInitialState rest

/-- The `except Exception` handler of `search_book` (lines 360-368): every
exception, timeouts included, maps to status Error with the exception text. -/
def searchExn (li : Bool) (title author : PyStr) (e : Exn)
    (files : List (PyStr × PyStr)) (reqs : List ReqTag) : SearchOutcome :=
  ⟨{ status := pys "Error", title := some title, author := some author
     message := some e.msg }, li, files, reqs⟩

/-- Line 242-243: `re.search(r'docID=([^&]+)', href)`, the empty string when
there is no match. -/
def tier1BookId (href : PyStr) : PyStr :=
  match searchCapture (pys "docID=") (fun c => c ≠ '&') href with
  | some g => g
  | none => []

/-- Lines 297-302: the first `book_results_item_` capture, else the first
`docID=` capture, else the empty string. -/
def fallbackBookId (text : PyStr) : PyStr :=
  match findAllCaptures (pys "book_results_item_") Char.isDigit text with
  | b :: _ => b
  | [] =>
    match findAllCaptures (pys "docID=")
        (fun c => c ≠ '&' && c ≠ '"' && c ≠ squote) text with
    | d :: _ => d
    | [] => []

/-- Tiers 2-3 of `search_book` (lines 277-358): fetch the rendered search
page, save it to `search_page.html`, scan it with the two findall regexes,
then check for embedded JavaScript state, else report Not Found. -/
def searchFallback (li : Bool) (title author : PyStr) (w : SearchWorld)
    (reqs0 : List ReqTag) : SearchOutcome :=
  match w.pageResp with
  | .error e => searchExn li title author e [] (reqs0 ++ [.searchPage])
  | .ok pr =>
    if pr.status_code ≠ 200 then
      ⟨{ status := pys "Error"
         message := some (pys "Failed to get search page: " ++
           natStr pr.status_code) }, li, [], reqs0 ++ [.searchPage]⟩
    else
      let files := [(pys "search_page.html", pr.text)]
      let book_id_matches :=
        findAllCaptures (pys "book_results_item_") Char.isDigit pr.text
      let detail_matches :=
        findAllCaptures (pys "docID=")
          (fun c => c ≠ '&' && c ≠ '"' && c ≠ squote) pr.text
      if !book_id_matches.isEmpty || !detail_matches.isEmpty then
        let book_id := fallbackBookId pr.text
        let title_text :=
          match w.pageSoup.h3Title <|> w.pageSoup.h3First with
          | some t => pyStrip t
          | none => title
        let author_text :=
          match w.pageSoup.authMetaLink with
          | some a => pyStrip a
          | none => author
        let view_url := if !book_id.isEmpty then detailUrl book_id else []
        let download_url :=
          if !book_id.isEmpty then view_url ++ pys "&download=true" else []
        ⟨{ status := pys "Found", title := some title_text
           author := some author_text, format := some (pys "PDF/EPUB")
           view_url := some view_url, download_url := some download_url
           book_id := some book_id, ebook_id := some book_id },
          li, files, reqs0 ++ [.searchPage]⟩
      else if hasInitialState pr.text then
        ⟨{ status := pys "Error", title := some title, author := some author
           message := some (pys
             "Search results may be in JavaScript data - needs further analysis") },
          li, files, reqs0 ++ [.searchPage]⟩
      else
        ⟨{ status := pys "Not Found", title := some title
           author := some author
           message := some (pys "No results found after trying multiple approaches") },
          li, files, reqs0 ++ [.searchPage]⟩

/-- Tier 1 hit of `search_book` (lines 236-272): build the Found result from
the first `docID=` link. -/
def searchTier1Result (title author : PyStr) (soup : Soup) (fb : ALink) :
    SearchResult :=
  let book_id := tier1BookId fb.href
  let t0 := pyStrip fb.text
  let title_text :=
    if t0.isEmpty then
      match fb.innerH3 <|> fb.nextH3 with
      | some te => pyStrip te
      | none => t0
    else t0
  let author_text :=
    match soup.authMetaLink with
    | some a => pyStrip a
    | none => author
  let view_url := if !book_id.isEmpty then detailUrl book_id else []
  let download_url :=
    if !book_id.isEmpty then view_url ++ pys "&download=true" else []
  { status := pys "Found"
    title := some (if title_text.isEmpty then title else title_text)
    author := some author_text, format := some (pys "PDF/EPUB")
    view_url := some view_url, download_url := some download_url
    book_id := some book_id, ebook_id := some book_id }

/-! ## `_parse_api_search_results` (library_manager.py lines 370-458)

A helper kept from an earlier revision; no code in the repository calls it.
Its JSON argument is modelled with the keys it reads; values the source pipes
through `str(...)` are supplied already stringified. -/

/-- The `authors` value of a result: a JSON list or a string (an absent key
defaults to the empty list). -/
inductive PyAuthors where
  | list (l : List PyStr)
  | str (s : PyStr)
deriving DecidableEq, Repr

/-- One entry of the `titles` array, restricted to the keys read.  `id` and
`publicationYear` hold `str(...)` of the raw value (`[]` when absent);
`title` is `none` when the key is absent. -/
structure ApiTitle where
  id : PyStr
  title : Option PyStr
  authors : PyAuthors
  publisher : PyStr
  publicationYear : PyStr
  downloadAvailable : Bool
  isbn : PyStr
  eisbn : PyStr
deriving DecidableEq, Repr

/-- The JSON body: `totalCount` (0 when absent) and `titles`. -/
structure ApiJson where
  totalCount : Nat
  titles : List ApiTitle
deriving DecidableEq, Repr

/-- Python `'; '.join(l)`. -/
def joinSemi (l : List PyStr) : PyStr := List.intercalate (pys "; ") l

/-- `_parse_api_search_results` (lines 370-458). -/
def parseApiSearchResults (j : ApiJson) (search_title search_author : PyStr) :
    SearchResult :=
  match j.titles with
  | [] =>
    { status := pys "Not Found", title := some search_title
      author := some search_author
      message := some (pys "No results returned from API") }
  | fr :: _ =>
    if j.totalCount = 0 then
      { status := pys "Not Found", title := some search_title
        author := some search_author
        message := some (pys "No results returned from API") }
    else
      let book_id := fr.id
      let title := fr.title.getD search_title
      let author :=
        match fr.authors with
        | .list l => if l.isEmpty then search_author else joinSemi l
        | .str s => if s.isEmpty then search_author else s
      let view_url := detailUrl book_id
      let download_url :=
        if fr.downloadAvailable then detailUrl book_id ++ pys "&download=true"
        else []
      { status := pys "Found", title := some title, author := some author
        format := some (pys "PDF/EPUB"), view_url := some view_url
        download_url := some download_url, publisher := some fr.publisher
        year := some fr.publicationYear, book_id := some book_id
        ebook_id := some book_id, isbn := some fr.isbn
        eisbn := some fr.eisbn }

/-- The body of `search_book` after the login-on-demand step (lines
196-358).  The search_query built on lines 196-200 only parameterizes the
requests, which the world abstracts. -/
def searchMain (li1 : Bool) (reqs1 : List ReqTag) (title author : PyStr)
    (w : SearchWorld) : SearchOutcome :=
  match w.homeResp with
  | .error e => searchExn li1 title author e [] (reqs1 ++ [.home])
  | .ok _ =>
    match w.searchResp with
    | .error e => searchExn li1 title author e [] (reqs1 ++ [.home, .searchApi])
    | .ok sr =>
      if sr.status_code = 200 then
        match w.searchSoup.anchors.filter
            (fun l => containsSub (pys "docID=") l.href) with
        | fb :: _ =>
          ⟨searchTier1Result title author w.searchSoup fb, li1, [],
            reqs1 ++ [.home, .searchApi]⟩
        | [] => searchFallback li1 title author w (reqs1 ++ [.home, .searchApi])
      else searchFallback li1 title author w (reqs1 ++ [.home, .searchApi])

/-- `search_book` (lines 182-368).  `li` is `self.is_logged_in` on entry;
`username`/`password` are `self.username`/`self.password`; the login-on-
demand step is lines 185-193. -/
def search_book (li : Bool) (username password : PyStr)
    (title author : PyStr) (w : SearchWorld) : SearchOutcome :=
  if !username.isEmpty && !password.isEmpty && !li then
    let lr := login li w.conn
    if lr.1 then searchMain lr.2.1 lr.2.2 title author w
    else
      ⟨{ status := pys "Error", message := some (pys "Login required") },
        lr.2.1, [], lr.2.2⟩
  else searchMain li [] title author w

/-! ## `download_book` (library_manager.py lines 596-830) -/

/-- One `<option>` element: its `value` attribute (if any) and its text. -/
structure OptionElem where
  value : Option PyStr
  text : PyStr
deriving DecidableEq, Repr

/-- One `<input>`/`<select>` field of a form: its tag name, `name` and
`value` attributes, and its `<option>` children. -/
structure FormField where
  tag : PyStr
  name : Option PyStr
  value : PyStr
  options : List OptionElem
deriving DecidableEq, Repr

/-- A `downloadForm` element: `get('action', '')`, `get('method', 'post')`
and its fields (`find_all(['input', 'select'])` in document order). -/
structure Form where
  action : PyStr
  method : PyStr
  fields : List FormField
deriving DecidableEq, Repr

/-- Python dict assignment `d[k] = v` preserving insertion order. -/
def dictInsert (d : List (PyStr × PyStr)) (k v : PyStr) :
    List (PyStr × PyStr) :=
  if d.any (fun p => p.1 = k) then
    d.map (fun p => if p.1 = k then (k, v) else p)
  else d ++ [(k, v)]

/-- Python `k in d`. -/
def dictHas (d : List (PyStr × PyStr)) (k : PyStr) : Bool :=
  d.any (fun p => p.1 = k)

/-- Form payload construction (lines 662-680): every named input/select
contributes its value; a field named `format` prefers the option with value
`pdf`, then any option whose text mentions PDF (case-insensitively), then -
for a `select` - its first option. -/
def buildFormData (fields : List FormField) : List (PyStr × PyStr) :=
  fields.foldl
    (fun d f =>
      match f.name with
      | none => d
      | some nm =>
        let v :=
          if nm = pys "format" then
            let pdfOpt :=
              f.options.find? (fun o => o.value = some (pys "pdf")) <|>
                f.options.find? (fun o => containsSub (pys "pdf") (pyLower o.text))
            match pdfOpt with
            | some o => o.value.getD (pys "pdf")
            | none =>
              if f.tag = pys "select" then
                match f.options with
                | o :: _ => o.value.getD []
                | [] => f.value
              else f.value
          else f.value
        dictInsert d nm v)
    []

/-- The second form payload (lines 733-738): inputs only, no format logic. -/
def buildInputData (fields : List FormField) : List (PyStr × PyStr) :=
  fields.foldl
    (fun d f =>
      match f.name with
      | none => d
      | some nm => dictInsert d nm f.value)
    []

/-- Everything of `s` up to and including its first occurrence of `lit`,
paired with the rest; `none` when `lit` does not occur. -/
def splitAfterLit (lit : PyStr) : PyStr → Option (PyStr × PyStr)
  | [] => if lit.isEmpty then some ([], []) else none
  | s@(c :: rest) =>
    if lit.isPrefixOf s then some (lit, s.drop lit.length)
    else
      match splitAfterLit lit rest with
      | some (pre, post) => some (c :: pre, post)
      | none => none

/-- The scheme-plus-authority part of an absolute URL. -/
def schemeHostOf (u : PyStr) : PyStr :=
  match splitAfterLit (pys "://") u with
  | some (pre, rest) => pre ++ rest.takeWhile (fun c => c ≠ '/')
  | none => u.takeWhile (fun c => c ≠ '/')

/-- `s` up to and including its last slash; `[]` when it has none. -/
def upToLastSlash (s : PyStr) : PyStr :=
  let tail := (s.reverse.takeWhile (fun c => c ≠ '/')).length
  if tail = s.length then [] else s.take (s.length - tail)

/-- Models `urllib.parse.urljoin` for the shapes the source exercises: an
absolute http(s) base joined with an absolute reference, a root-relative
reference, or a relative one replacing the final path segment. -/
def urljoin (base ref : PyStr) : PyStr :=
  if pyStartsWith (pys "http") ref then ref
  else
    match ref with
    | '/' :: _ => schemeHostOf base ++ ref
    | _ =>
      let d := upToLastSlash base
      (if d.isEmpty then schemeHostOf base ++ pys "/" else d) ++ ref

/-- The phrases sought in link text on the confirmation page (line 712). -/
def dlTerms : List PyStr :=
  [pys "download", pys "get book", pys "get pdf", pys "get epub"]

/-- Lines 707-716: the first link whose text carries a download phrase; its
`href` (joined against the confirmation URL when relative), `[]` when the
link is absent, has no `href`, or has an empty one. -/
def findDownloadLink (links : List ALink) (base : PyStr) : PyStr :=
  match links.find?
      (fun l => dlTerms.any (fun t => containsSub t (pyLower l.text))) with
  | none => []
  | some l =>
    if !l.href.isEmpty && !pyStartsWith (pys "http") l.href then
      urljoin base l.href
    else l.href

/-- A streamed response: status, the two headers read, and the chunk
sequence `iter_content` yields (each chunk as its bytes).  `contentLength`
is `int(headers.get('content-length', 0))`. -/
structure FileResp where
  status_code : Nat
  contentType : PyStr
  contentLength : Nat
  chunks : List (List Nat)
deriving DecidableEq, Repr

/-- The responses and parsed pages `download_book` can consume.
`pageForm`/`confirmForm` answer
`soup.find('form', {'id': 'downloadForm'}) or soup.find('form', {'name': 'downloadForm'})`
on the respective page. -/
structure DlWorld where
  conn : ConnWorld
  pageResp : Net HttpResp
  pageForm : Option Form
  confirmResp : Net HttpResp
  confirmLinks : List ALink
  confirmForm : Option Form
  fileResp : Net FileResp
deriving Repr

/-- Outcome of `download_book`: the returned dict, the login flag after the
call, the files written (path, bytes) - directory creation via
`os.makedirs` holds no file content and is not tracked - the progress
callback invocations `(downloaded, total_length)` in order, and the
requests issued. -/
structure DlOutcome where
  success : Bool
  message : Option PyStr := none
  file_path : Option PyStr := none
  format : Option PyStr := none
  is_logged_in : Bool
  files : List (PyStr × List Nat)
  calls : List (Nat × Nat)
  reqs : List ReqTag
deriving DecidableEq, Repr

/-- `.pdf` / `.epub` / `.bin` from the lowercased content type (line 782). -/
def extOf (ct : PyStr) : PyStr :=
  if containsSub (pys "pdf") ct then pys ".pdf"
  else if containsSub (pys "epub") ct then pys ".epub"
  else pys ".bin"

/-- The extension-free part of `os.path.splitext` on a path without
directory separators: leading dots of the name never start an extension. -/
def lastDotSplit (base : PyStr) : PyStr :=
  let lead := base.takeWhile (fun c => c = '.')
  let rest := base.drop lead.length
  let tail := (rest.reverse.takeWhile (fun c => c ≠ '.')).length
  if tail = rest.length then base
  else lead ++ rest.take (rest.length - tail - 1)

/-- `os.path.splitext(p)[0]` (POSIX separators). -/
def splitextRoot (p : PyStr) : PyStr :=
  let tail := (p.reverse.takeWhile (fun c => c ≠ '/')).length
  p.take (p.length - tail) ++ lastDotSplit (p.drop (p.length - tail))

/-- `str.upper()` (ASCII). -/
def pyUpper (x : PyStr) : PyStr := x.map Char.toUpper

/-- Lines 779-786: pick the extension from the lowercased content type and
force the output path to end with it (case-insensitively). -/
def normalizeOutputPath (ct : PyStr) (output_path : PyStr) : PyStr :=
  let ext := extOf ct
  if !pyEndsWith ext (pyLower output_path) then splitextRoot output_path ++ ext
  else output_path

/-- The chunk-write loop (lines 799-807): skip empty chunks, accumulate the
byte count, and invoke the progress callback after each written chunk when a
callback was supplied and `total_length` is nonzero.  Returns the final byte
count and the callback invocations in order. -/
def streamLoop (cb : Bool) (total downloaded : Nat) (chunks : List (List Nat)) :
    Nat × List (Nat × Nat) :=
  match chunks with
  | [] => (downloaded, [])
  | c :: rest =>
    if c.isEmpty then streamLoop cb total downloaded rest
    else
      ((streamLoop cb total (downloaded + c.length) rest).1,
        (if cb && total != 0 then [(downloaded + c.length, total)] else []) ++
          (streamLoop cb total (downloaded + c.length) rest).2)

/-- Sum of the increments of a numeric sequence relative to a starting
point: `deltaSum 0 [a, b, c] = (a - 0) + (b - a) + (c - b)`. -/
def deltaSum (prev : Nat) : List Nat → Nat
  | [] => 0
  | x :: xs => (x - prev) + deltaSum x xs

/-- The `except` clauses of `download_book` (lines 817-830): a timeout maps
to "Download timed out", everything else to the exception text. -/
def dlExn (li : Bool) (e : Exn) (files : List (PyStr × List Nat))
    (reqs : List ReqTag) : DlOutcome :=
  match e.kind with
  | .timeout =>
    { success := false, message := some (pys "Download timed out")
      is_logged_in := li, files := files, calls := [], reqs := reqs }
  | _ =>
    { success := false, message := some e.msg, is_logged_in := li
      files := files, calls := [], reqs := reqs }

/-- A failure return dict: success False plus a message. -/
def dlFail (li : Bool) (msg : PyStr) (reqs : List ReqTag) : DlOutcome :=
  { success := false, message := some msg, is_logged_in := li
    files := [], calls := [], reqs := reqs }

/-- The final streamed fetch and write (lines 746-815). -/
def dlFetchFile (li : Bool) (output_path : PyStr) (cb : Bool)
    (fileResp : Net FileResp) (reqs : List ReqTag) : DlOutcome :=
  match fileResp with
  | .error e => dlExn li e [] reqs
  | .ok fr =>
    if fr.status_code ≠ 200 then
      dlFail li (pys "File download failed: " ++ natStr fr.status_code) reqs
    else
      let ct := pyLower fr.contentType
      let path := normalizeOutputPath ct output_path
      let (_, calls) := streamLoop cb fr.contentLength 0 fr.chunks
      { success := true, file_path := some path
        format := some (pyUpper ((extOf ct).drop 1))
        is_logged_in := li, files := [(path, fr.chunks.flatten)]
        calls := calls, reqs := reqs }

/-- The body of `download_book` after the login-on-demand step (lines
619-815). -/
def dlMain (li1 : Bool) (reqs1 : List ReqTag)
    (download_url book_id output_path : PyStr) (cb : Bool) (w : DlWorld) :
    DlOutcome :=
    match w.pageResp with
    | .error e => dlExn li1 e [] (reqs1 ++ [.dlPage])
    | .ok dp =>
      if dp.status_code ≠ 200 then
        dlFail li1 (pys "Download page access failed: " ++ natStr dp.status_code)
          (reqs1 ++ [.dlPage])
      else
        match w.pageForm with
        | none =>
          dlFail li1 (pys "Could not find download form") (reqs1 ++ [.dlPage])
        | some form =>
          -- lines 650-693: resolve the action, build the payload, submit
          let form_action0 := form.action
          let _form_action :=
            if form_action0.isEmpty then download_url
            else if !pyStartsWith (pys "http") form_action0 then
              urljoin download_url form_action0
            else form_action0
          let fd0 := buildFormData form.fields
          let _form_data :=
            if !dictHas fd0 (pys "docID") && !book_id.isEmpty then
              dictInsert fd0 (pys "docID") book_id
            else fd0
          match w.confirmResp with
          | .error e => dlExn li1 e [] (reqs1 ++ [.dlPage, .dlConfirm])
          | .ok cr =>
            let reqs2 := reqs1 ++ [.dlPage, .dlConfirm]
            if cr.status_code ≠ 200 then
              dlFail li1
                (pys "Download confirmation failed: " ++ natStr cr.status_code)
                reqs2
            else
              let download_link := findDownloadLink w.confirmLinks cr.url
              if !download_link.isEmpty then
                dlFetchFile li1 output_path cb w.fileResp (reqs2 ++ [.dlFile])
              else
                match w.confirmForm with
                | some f2 =>
                  if !f2.action.isEmpty then
                    let _fa :=
                      if !pyStartsWith (pys "http") f2.action then
                        urljoin cr.url f2.action
                      else f2.action
                    let _fd := buildInputData f2.fields
                    dlFetchFile li1 output_path cb w.fileResp
                      (reqs2 ++ [.dlFile])
                  else
                    dlFail li1 (pys "Could not find download action") reqs2
                | none =>
                  dlFail li1 (pys "Could not find download link or form") reqs2

/-- `download_book` (lines 596-830).  `li` is `self.is_logged_in` on entry;
`cb` records whether a progress callback was supplied; the login-on-demand
step is lines 609-617. -/
def download_book (li : Bool) (username password : PyStr)
    (download_url book_id output_path : PyStr) (cb : Bool) (w : DlWorld) :
    DlOutcome :=
  if !username.isEmpty && !password.isEmpty && !li then
    let lr := login li w.conn
    if lr.1 then dlMain lr.2.1 lr.2.2 download_url book_id output_path cb w
    else
      { success := false, message := some (pys "Login required")
        is_logged_in := lr.2.1, files := [], calls := [], reqs := lr.2.2 }
  else dlMain li [] download_url book_id output_path cb w

/-! ## Concrete worlds for closed instances -/

/-- A bare 200 response with no markers. -/
def blankResp : HttpResp := { status_code := 200, url := [], text := [] }

/-- A soup with nothing in it. -/
def blankSoup : Soup := { anchors := [], authMetaLink := none, h3Title := none
                          h3First := none }

/-- A connection world on which every login heuristic fails. -/
def failConnWorld : ConnWorld := ⟨.ok blankResp, .ok blankResp⟩

/-- A connection world whose login POST lands on a `/ebc/` URL, so the
login succeeds. -/
def okConnWorld : ConnWorld :=
  ⟨.ok blankResp, .ok { status_code := 200, url := pys "/ebc/home", text := [] }⟩

/-- A search world whose login fails (its later responses are blank). -/
def wsLoginFail : SearchWorld :=
  { conn := failConnWorld, homeResp := .ok blankResp
    searchResp := .ok blankResp, searchSoup := blankSoup
    pageResp := .ok blankResp, pageSoup := blankSoup }

/-- A download world whose login fails. -/
def wdLoginFail : DlWorld :=
  { conn := failConnWorld, pageResp := .ok blankResp, pageForm := none
    confirmResp := .ok blankResp, confirmLinks := [], confirmForm := none
    fileResp := .ok { status_code := 200, contentType := [], contentLength := 0
                      chunks := [] } }

/-- A search world whose tier-1 response is a 200 with no `docID=` links and
whose fallback page GET returns a 500. -/
def wsPageErr : SearchWorld :=
  { conn := failConnWorld, homeResp := .ok blankResp
    searchResp := .ok blankResp, searchSoup := blankSoup
    pageResp := .ok { status_code := 500, url := [], text := [] }
    pageSoup := blankSoup }

/-- A search world whose tier-1 response is a 200 with no `docID=` links and
whose fallback page is a 200 body with no recognizable data. -/
def wsPlainPage : SearchWorld :=
  { conn := failConnWorld, homeResp := .ok blankResp
    searchResp := .ok blankResp, searchSoup := blankSoup
    pageResp := .ok { status_code := 200, url := [], text := pys "hello" }
    pageSoup := blankSoup }

/-- A search world whose tier-1 page carries one `docID=123` link while its
body also carries an explicit `"downloadAvailable": false` marker. -/
def wsNotDownloadable : SearchWorld :=
  { conn := failConnWorld, homeResp := .ok blankResp
    searchResp := .ok
      { status_code := 200, url := []
        text := pys "<a href=\"detail.action?docID=123\">B</a><script>var a = \x7b\"downloadAvailable\": false\x7d;</script>" }
    searchSoup :=
      { anchors := [{ href := pys "detail.action?docID=123", text := pys "B"
                      innerH3 := none, nextH3 := none }]
        authMetaLink := none, h3Title := none, h3First := none }
    pageResp := .ok blankResp, pageSoup := blankSoup }

/-- A search world whose very first request times out with an exception text
that does not mention a timeout. -/
def wsTimeout : SearchWorld :=
  { conn := failConnWorld
    homeResp := .error { kind := .timeout, msg := pys "socket stalled" }
    searchResp := .ok blankResp, searchSoup := blankSoup
    pageResp := .ok blankResp, pageSoup := blankSoup }

/-- A download world whose download page is a 200 without a download form. -/
def wdNoForm : DlWorld :=
  { conn := failConnWorld, pageResp := .ok blankResp, pageForm := none
    confirmResp := .ok blankResp, confirmLinks := [], confirmForm := none
    fileResp := .ok { status_code := 200, contentType := [], contentLength := 0
                      chunks := [] } }

/-- A download world that goes through: form on the first page, a direct
download link on the confirmation page, and a 4-byte PDF stream. -/
def wdOk : DlWorld :=
  { conn := failConnWorld, pageResp := .ok blankResp
    pageForm := some { action := pys "http://x/confirm", method := pys "post"
                       fields := [] }
    confirmResp := .ok blankResp
    confirmLinks := [{ href := pys "http://x/file", text := pys "Download PDF"
                       innerH3 := none, nextH3 := none }]
    confirmForm := none
    fileResp := .ok { status_code := 200, contentType := pys "application/pdf"
                      contentLength := 4, chunks := [[1, 2, 3, 4]] } }

/-- An API response whose only result forbids download. -/
def frNoDl : ApiTitle :=
  { id := pys "77", title := some (pys "B"), authors := .list []
    publisher := [], publicationYear := [], downloadAvailable := false
    isbn := [], eisbn := [] }

/-- The API body holding `frNoDl` as its only result. -/
def jNoDl : ApiJson := { totalCount := 1, titles := [frNoDl] }

/-- An API body with no results. -/
def jEmpty : ApiJson := { totalCount := 0, titles := [] }

/-- A connection world whose first request times out. -/
def wcTimeout : ConnWorld :=
  ⟨.error { kind := .timeout, msg := pys "t" }, .ok blankResp⟩

/-- A connection world whose first request hits a connection error. -/
def wcConnErr : ConnWorld :=
  ⟨.error { kind := .connection, msg := pys "c" }, .ok blankResp⟩

/-- A download world whose first request times out. -/
def wdTimeout : DlWorld :=
  { conn := failConnWorld
    pageResp := .error { kind := .timeout, msg := pys "x" }
    pageForm := none, confirmResp := .ok blankResp, confirmLinks := []
    confirmForm := none
    fileResp := .ok { status_code := 200, contentType := [], contentLength := 0
                      chunks := [] } }

/-! ## Properties of the streaming loop -/

theorem streamLoop_fst (cb : Bool) (total : Nat) (chunks : List (List Nat)) :
    ∀ d, (streamLoop cb total d chunks).1 = d + (chunks.map List.length).sum := by
  induction chunks with
  | nil => intro d; simp [streamLoop]
  | cons c rest ih =>
    intro d
    by_cases hc : c.isEmpty
    · have hlen : c = [] := by simpa [List.isEmpty_iff] using hc
      simp [streamLoop, hc, ih, hlen]
    · simp only [streamLoop, hc, Bool.false_eq_true, if_false, ih,
        List.map_cons, List.sum_cons]
      omega

theorem streamLoop_zero_total (cb : Bool) (chunks : List (List Nat)) :
    ∀ d, (streamLoop cb 0 d chunks).2 = [] := by
  induction chunks with
  | nil => intro d; simp [streamLoop]
  | cons c rest ih =>
    intro d
    by_cases hc : c.isEmpty
    · simp [streamLoop, hc, ih]
    · simp [streamLoop, hc, ih]

theorem streamLoop_no_callback (total : Nat) (chunks : List (List Nat)) :
    ∀ d, (streamLoop false total d chunks).2 = [] := by
  induction chunks with
  | nil => intro d; simp [streamLoop]
  | cons c rest ih =>
    intro d
    by_cases hc : c.isEmpty
    · simp [streamLoop, hc, ih]
    · simp [streamLoop, hc, ih]

theorem streamLoop_mem (total : Nat) (chunks : List (List Nat)) :
    ∀ d, ∀ x ∈ (streamLoop true total d chunks).2, d < x.1 ∧ x.2 = total := by
  induction chunks with
  | nil => intro d x hx; simp [streamLoop] at hx
  | cons c rest ih =>
    intro d x hx
    by_cases hc : c.isEmpty
    · rw [show streamLoop true total d (c :: rest) = streamLoop true total d rest
          from by simp [streamLoop, hc]] at hx
      exact ih d x hx
    · by_cases ht : total = 0
      · subst ht
        rw [streamLoop_zero_total] at hx
        simp at hx
      · have hne : (total != 0) = true := by simpa using ht
        simp only [streamLoop, hc, Bool.false_eq_true, if_false, hne,
          Bool.and_self, if_true, List.mem_append, List.mem_singleton] at hx
        have hcl : 0 < c.length := by
          have : c ≠ [] := by simpa [List.isEmpty_iff] using hc
          exact List.length_pos.mpr this
        rcases hx with hx | hx
        · subst hx; exact ⟨by omega, rfl⟩
        · have := ih (d + c.length) x hx
          exact ⟨by omega, this.2⟩

theorem streamLoop_chain (total : Nat) (chunks : List (List Nat)) :
    ∀ d, List.Chain' (fun a b : Nat × Nat => a.1 < b.1)
      (streamLoop true total d chunks).2 := by
  induction chunks with
  | nil => intro d; simp [streamLoop]
  | cons c rest ih =>
    intro d
    by_cases hc : c.isEmpty
    · simpa [streamLoop, hc] using ih d
    · by_cases ht : total = 0
      · subst ht
        rw [streamLoop_zero_total]; exact List.chain'_nil
      · have hne : (total != 0) = true := by simpa using ht
        simp only [streamLoop, hc, Bool.false_eq_true, if_false, hne,
          Bool.and_self, if_true, List.singleton_append]
        refine List.Chain'.cons' (ih (d + c.length)) ?_
        intro y hy
        exact ((streamLoop_mem total rest (d + c.length)) y
          (List.mem_of_mem_head? hy)).1

theorem streamLoop_calls_nil_iff (total : Nat) (ht : total ≠ 0)
    (chunks : List (List Nat)) :
    ∀ d, (streamLoop true total d chunks).2 = [] ↔
      (chunks.map List.length).sum = 0 := by
  induction chunks with
  | nil => intro d; simp [streamLoop]
  | cons c rest ih =>
    intro d
    by_cases hc : c.isEmpty
    · have hlen : c = [] := by simpa [List.isEmpty_iff] using hc
      simp [streamLoop, hc, ih, hlen]
    · have hne : (total != 0) = true := by simpa using ht
      have hcl : 0 < c.length := by
        have : c ≠ [] := by simpa [List.isEmpty_iff] using hc
        exact List.length_pos.mpr this
      simp only [streamLoop, hc, Bool.false_eq_true, if_false, hne,
        Bool.and_self, if_true, List.singleton_append, List.map_cons,
        List.sum_cons]
      constructor
      · intro h; cases h
      · intro h; omega

theorem streamLoop_getLast (total : Nat) (ht : total ≠ 0)
    (chunks : List (List Nat)) :
    ∀ d, (streamLoop true total d chunks).2 = [] ∨
      (streamLoop true total d chunks).2.getLast? =
        some ((streamLoop true total d chunks).1, total) := by
  induction chunks with
  | nil => intro d; left; simp [streamLoop]
  | cons c rest ih =>
    intro d
    by_cases hc : c.isEmpty
    · simpa [streamLoop, hc] using ih d
    · right
      have hne : (total != 0) = true := by simpa using ht
      simp only [streamLoop, hc, Bool.false_eq_true, if_false, hne,
        Bool.and_self, if_true, List.singleton_append]
      rcases ih (d + c.length) with hnil | hlast
      · have hsum := (streamLoop_calls_nil_iff total ht rest (d + c.length)).mp hnil
        have hfst := streamLoop_fst true total rest (d + c.length)
        rw [hnil]
        simp [hfst, hsum]
      · cases hcalls : (streamLoop true total (d + c.length) rest).2 with
        | nil =>
          rw [hcalls] at hlast
          simp at hlast
        | cons y ys =>
          rw [hcalls] at hlast
          rw [List.getLast?_cons_cons]
          exact hlast

theorem streamLoop_deltaSum (total : Nat) (ht : total ≠ 0)
    (chunks : List (List Nat)) :
    ∀ d, deltaSum d ((streamLoop true total d chunks).2.map Prod.fst) + d =
      (streamLoop true total d chunks).1 := by
  induction chunks with
  | nil => intro d; simp [streamLoop, deltaSum]
  | cons c rest ih =>
    intro d
    by_cases hc : c.isEmpty
    · simpa [streamLoop, hc] using ih d
    · have hne : (total != 0) = true := by simpa using ht
      simp only [streamLoop, hc, Bool.false_eq_true, if_false, hne,
        Bool.and_self, if_true, List.singleton_append, List.map_cons,
        deltaSum]
      have := ih (d + c.length)
      omega

/-- C8: during the streaming phase of `download_book` with a progress
callback supplied, the callback is invoked only when a content length was
declared and is nonzero; its `bytesReceived` arguments strictly increase;
the deltas between consecutive `bytesReceived` values sum to the number of
bytes written; and when the declared length equals the body size, the final
invocation reports `bytesReceived = bytesTotal`. -/
theorem c8_stream_progress (chunks : List (List Nat)) (total : Nat)
    (hB : total = chunks.flatten.length) (hpos : 0 < total) :
    (streamLoop true 0 0 chunks).2 = [] ∧
    List.Chain' (fun a b : Nat × Nat => a.1 < b.1)
      (streamLoop true total 0 chunks).2 ∧
    deltaSum 0 ((streamLoop true total 0 chunks).2.map Prod.fst) =
      chunks.flatten.length ∧
    (streamLoop true total 0 chunks).2.getLast? =
      some ((streamLoop true total 0 chunks).1, total) ∧
    (streamLoop true total 0 chunks).1 = total := by
  have ht : total ≠ 0 := by omega
  have hfst := streamLoop_fst true total chunks 0
  have hflat : (chunks.map List.length).sum = chunks.flatten.length :=
    (List.length_flatten chunks).symm
  refine ⟨streamLoop_zero_total true chunks 0, streamLoop_chain total chunks 0,
    ?_, ?_, ?_⟩
  · have := streamLoop_deltaSum total ht chunks 0
    omega
  · rcases streamLoop_getLast total ht chunks 0 with hnil | hlast
    · have := (streamLoop_calls_nil_iff total ht chunks 0).mp hnil
      omega
    · exact hlast
  · omega

/-- Closed instance of C8: a 10000-byte body in ten 1000-byte chunks. -/
theorem c8_stream_progress_witness :
    0 < 10000 ∧
    deltaSum 0 ((streamLoop true 10000 0
        (List.replicate 10 (List.replicate 1000 7))).2.map Prod.fst) = 10000 ∧
    (streamLoop true 10000 0
        (List.replicate 10 (List.replicate 1000 7))).2.getLast? =
      some (10000, 10000) := by
  have hB : (10000 : Nat) =
      (List.replicate 10 (List.replicate 1000 (7 : Nat))).flatten.length := by
    rw [List.length_flatten, List.map_replicate, List.length_replicate,
      List.sum_replicate]
    norm_num
  have h := c8_stream_progress (List.replicate 10 (List.replicate 1000 7))
    10000 hB (by norm_num)
  exact ⟨by norm_num, by rw [h.2.2.1, ← hB], by rw [h.2.2.2.1, h.2.2.2.2]⟩

/-! ## Idempotence of the output-path normalization -/

theorem pyLower_append (a b : PyStr) : pyLower (a ++ b) = pyLower a ++ pyLower b :=
  List.map_append _ a b

theorem extOf_lower (ct : PyStr) : pyLower (extOf ct) = extOf ct := by
  unfold extOf
  split_ifs <;> rfl

theorem isSuffixOf_append (a b : PyStr) : b.isSuffixOf (a ++ b) = true := by
  simp [List.isSuffixOf_iff_suffix]

/-- C9: the extension-normalization step of `download_book` is idempotent:
for every content type and output path, applying it twice yields the same
final path as applying it once. -/
theorem c9_normalize_idempotent (ct p : PyStr) :
    normalizeOutputPath ct (normalizeOutputPath ct p) =
      normalizeOutputPath ct p := by
  unfold normalizeOutputPath
  by_cases h : pyEndsWith (extOf ct) (pyLower p) = true
  · simp [h]
  · have hb : pyEndsWith (extOf ct) (pyLower p) = false :=
      Bool.eq_false_iff.mpr h
    have hsuf : pyEndsWith (extOf ct) (pyLower (splitextRoot p ++ extOf ct)) =
        true := by
      unfold pyEndsWith
      rw [pyLower_append, extOf_lower]
      exact isSuffixOf_append _ _
    simp [hb, hsuf]

/-- C10: an input on which `search_book` reports Found with an empty
`book_id`, `view_url` and `download_url`: the tier-1 page carries one link
whose href contains `docID=` with no id value after it. -/
theorem c10_found_with_empty_ids :
    let w : SearchWorld :=
      { conn := ⟨.ok ⟨200, [], []⟩, .ok ⟨200, [], []⟩⟩
        homeResp := .ok ⟨200, [], []⟩
        searchResp := .ok ⟨200, [],
          pys "<a href=\"detail.action?docID=\">Some Book</a>"⟩
        searchSoup :=
          ⟨[⟨pys "detail.action?docID=", pys "Some Book", none, none⟩],
            none, none, none⟩
        pageResp := .ok ⟨200, [], []⟩
        pageSoup := ⟨[], none, none, none⟩ }
    containsSub (pys "docID=") (pys "detail.action?docID=") = true ∧
    (search_book false [] [] (pys "T") (pys "A") w).result =
      { status := pys "Found", title := some (pys "Some Book")
        author := some (pys "A"), format := some (pys "PDF/EPUB")
        view_url := some [], download_url := some [], book_id := some []
        ebook_id := some [] } := by
  decide

/-! ## Login-on-demand -/

theorem test_connection_reqs (li : Bool) (w : ConnWorld) :
    (test_connection li w).reqs = [ReqTag.connHome] ∨
    (test_connection li w).reqs = [ReqTag.connHome, ReqTag.connLogin] := by
  unfold test_connection
  rcases w.homeResp with e | home
  · left; rfl
  · dsimp only
    split
    · left; rfl
    · rcases w.loginResp with e | lr
      · right; rfl
      · dsimp only
        split
        · right; rfl
        · right; rfl

theorem isEmpty_false_of_ne_nil {l : PyStr} (h : l ≠ []) : l.isEmpty = false := by
  cases l with
  | nil => exact absurd rfl h
  | cons c cs => rfl

/-- C3: with credentials set and the client not logged in, `search_book` and
`download_book` first run `login()`; when that login fails they return the
"Login required" failure without issuing any search or download request. -/
theorem c3_login_required (username password title author durl bid opath : PyStr)
    (cb : Bool) (ws : SearchWorld) (wd : DlWorld)
    (hu : username ≠ []) (hp : password ≠ [])
    (hs : (test_connection false ws.conn).result.success = false)
    (hd : (test_connection false wd.conn).result.success = false) :
    ((search_book false username password title author ws).result.status =
        pys "Error" ∧
      (search_book false username password title author ws).result.message =
        some (pys "Login required") ∧
      ∀ t ∈ (search_book false username password title author ws).reqs,
        t = ReqTag.connHome ∨ t = ReqTag.connLogin) ∧
    ((download_book false username password durl bid opath cb wd).success =
        false ∧
      (download_book false username password durl bid opath cb wd).message =
        some (pys "Login required") ∧
      ∀ t ∈ (download_book false username password durl bid opath cb wd).reqs,
        t = ReqTag.connHome ∨ t = ReqTag.connLogin) := by
  have hu2 : username.isEmpty = false := isEmpty_false_of_ne_nil hu
  have hp2 : password.isEmpty = false := isEmpty_false_of_ne_nil hp
  constructor
  · simp only [search_book, login, hu2, hp2, hs, Bool.not_false,
      Bool.and_self, Bool.and_true, Bool.not_true, if_true,
      Bool.false_eq_true, if_false]
    refine ⟨trivial, trivial, ?_⟩
    intro t ht
    rcases test_connection_reqs false ws.conn with hr | hr <;> rw [hr] at ht <;>
      simp at ht
    · left; exact ht
    · rcases ht with ht | ht
      · left; exact ht
      · right; exact ht
  · simp only [download_book, login, hu2, hp2, hd, Bool.not_false,
      Bool.and_self, Bool.and_true, Bool.not_true, if_true,
      Bool.false_eq_true, if_false]
    refine ⟨trivial, trivial, ?_⟩
    intro t ht
    rcases test_connection_reqs false wd.conn with hr | hr <;> rw [hr] at ht <;>
      simp at ht
    · left; exact ht
    · rcases ht with ht | ht
      · left; exact ht
      · right; exact ht

/-! ## The missing download form -/

/-- C4: when the initial GET of the download URL returns 200 but the page
holds no `downloadForm`, `download_book` fails with the form-missing message
and writes no file. -/
theorem c4_missing_form (li : Bool) (username password durl bid opath : PyStr)
    (cb : Bool) (w : DlWorld) (dp : HttpResp)
    (hreach : (!username.isEmpty && !password.isEmpty && !li) = false ∨
      (test_connection li w.conn).result.success = true)
    (hdp : w.pageResp = .ok dp) (h200 : dp.status_code = 200)
    (hform : w.pageForm = none) :
    (download_book li username password durl bid opath cb w).success = false ∧
    (download_book li username password durl bid opath cb w).message =
      some (pys "Could not find download form") ∧
    (download_book li username password durl bid opath cb w).files = [] := by
  have hmain : ∀ li1 reqs1,
      (dlMain li1 reqs1 durl bid opath cb w).success = false ∧
      (dlMain li1 reqs1 durl bid opath cb w).message =
        some (pys "Could not find download form") ∧
      (dlMain li1 reqs1 durl bid opath cb w).files = [] := by
    intro li1 reqs1
    unfold dlMain
    rw [hdp]
    simp [h200, hform, dlFail]
  by_cases hg : (!username.isEmpty && !password.isEmpty && !li) = true
  · have hok : (test_connection li w.conn).result.success = true := by
      rcases hreach with hf | hok
      · rw [hg] at hf; cases hf
      · exact hok
    simp only [download_book, login, hg, if_true, hok]
    exact hmain _ _
  · have hg2 : (!username.isEmpty && !password.isEmpty && !li) = false :=
      Bool.eq_false_iff.mpr hg
    simp only [download_book, hg2, Bool.false_eq_true, if_false]
    exact hmain _ _

/-- Closed instance of C4 at a concrete world. -/
theorem c4_missing_form_witness :
    (download_book true [] [] (pys "http://x/dl") (pys "9") (pys "/tmp/o")
      false wdNoForm).message = some (pys "Could not find download form") ∧
    (download_book true [] [] (pys "http://x/dl") (pys "9") (pys "/tmp/o")
      false wdNoForm).files = [] := by
  have h := c4_missing_form true [] [] (pys "http://x/dl") (pys "9")
    (pys "/tmp/o") false wdNoForm blankResp (Or.inl (by decide))
    rfl rfl rfl
  exact ⟨h.2.1, h.2.2⟩

/-! ## The login flag across the operations -/

theorem searchExn_li (li : Bool) (t a : PyStr) (e : Exn) (files) (reqs) :
    (searchExn li t a e files reqs).is_logged_in = li := rfl

theorem searchFallback_li (li : Bool) (t a : PyStr) (w : SearchWorld) (reqs0) :
    (searchFallback li t a w reqs0).is_logged_in = li := by
  unfold searchFallback searchExn
  rcases w.pageResp with e | pr
  · rfl
  · dsimp only
    split_ifs <;> rfl

theorem dlExn_li (li : Bool) (e : Exn) (files) (reqs) :
    (dlExn li e files reqs).is_logged_in = li := by
  rcases e with ⟨k, m⟩
  cases k <;> rfl

theorem dlFetchFile_li (li : Bool) (opath : PyStr) (cb : Bool)
    (fileResp : Net FileResp) (reqs) :
    (dlFetchFile li opath cb fileResp reqs).is_logged_in = li := by
  unfold dlFetchFile
  rcases fileResp with e | fr
  · exact dlExn_li ..
  · dsimp only
    split_ifs <;> rfl

/-- C5 counterexample: a client that is already Authenticated
(`is_logged_in = true`) runs `test_connection` (the body of `login`) against
responses that fail every heuristic; the flag drops back to `false`. -/
theorem c5_counterexample :
    (test_connection true failConnWorld).is_logged_in = false := by decide

theorem searchMain_li (li1 : Bool) (reqs1 : List ReqTag)
    (title author : PyStr) (w : SearchWorld) :
    (searchMain li1 reqs1 title author w).is_logged_in = li1 := by
  unfold searchMain
  rcases w.homeResp with e | hr
  · exact searchExn_li ..
  · dsimp only
    rcases w.searchResp with e | sr
    · exact searchExn_li ..
    · dsimp only
      split
      · split
        · rfl
        · exact searchFallback_li ..
      · exact searchFallback_li ..

theorem dlMain_li (li1 : Bool) (reqs1 : List ReqTag)
    (durl bid opath : PyStr) (cb : Bool) (w : DlWorld) :
    (dlMain li1 reqs1 durl bid opath cb w).is_logged_in = li1 := by
  unfold dlMain
  rcases w.pageResp with e | dp
  · exact dlExn_li ..
  · dsimp only
    split
    · rfl
    · rcases w.pageForm with _ | form
      · rfl
      · dsimp only
        rcases w.confirmResp with e | cr
        · exact dlExn_li ..
        · dsimp only
          split
          · rfl
          · split
            · exact dlFetchFile_li ..
            · rcases w.confirmForm with _ | f2
              · rfl
              · dsimp only
                split
                · exact dlFetchFile_li ..
                · rfl

/-- C5 amended: `search_book` and `download_book` never lower a true
`is_logged_in` (they only invoke `login` when the flag is false); only a
direct `login`/`test_connection` call whose heuristics fail resets it. -/
theorem c5_amended :
    (∀ (username password title author : PyStr) (w : SearchWorld),
      (search_book true username password title author w).is_logged_in =
        true) ∧
    (∀ (username password durl bid opath : PyStr) (cb : Bool) (w : DlWorld),
      (download_book true username password durl bid opath cb w).is_logged_in =
        true) := by
  constructor
  · intro username password title author w
    simp only [search_book, Bool.not_true, Bool.and_false, Bool.false_eq_true,
      if_false]
    exact searchMain_li ..
  · intro username password durl bid opath cb w
    simp only [download_book, Bool.not_true, Bool.and_false,
      Bool.false_eq_true, if_false]
    exact dlMain_li ..


/-! ## The download-availability invariant -/

theorem dlUrl_iff (bid : PyStr) :
    (some (if !bid.isEmpty then
        (if !bid.isEmpty then detailUrl bid else []) ++ pys "&download=true"
      else []) = some ([] : PyStr)) ↔ (some bid = some ([] : PyStr)) := by
  by_cases hb : bid.isEmpty = true
  · have hbe : bid = [] := by simpa [List.isEmpty_iff] using hb
    subst hbe
    simp
  · have hne : bid ≠ [] := by simpa [List.isEmpty_iff] using hb
    have hbf : bid.isEmpty = false := Bool.eq_false_iff.mpr hb
    have hdu : detailUrl bid ++ pys "&download=true" ≠ [] := by
      simp [detailUrl, pys]
    simp [hbf, hdu, hne]

theorem searchTier1Result_dl_iff (t a : PyStr) (soup : Soup) (fb : ALink) :
    ((searchTier1Result t a soup fb).download_url = some [] ↔
      (searchTier1Result t a soup fb).book_id = some []) := by
  unfold searchTier1Result
  exact dlUrl_iff (tier1BookId fb.href)

theorem searchFallback_dl_iff (li : Bool) (t a : PyStr) (w : SearchWorld)
    (reqs0 : List ReqTag)
    (h : (searchFallback li t a w reqs0).result.status = pys "Found") :
    ((searchFallback li t a w reqs0).result.download_url = some [] ↔
      (searchFallback li t a w reqs0).result.book_id = some []) := by
  obtain ⟨cw, whome, wsearch, wssoup, wpage, wpsoup⟩ := w
  unfold searchFallback at h ⊢
  dsimp only at h ⊢
  rcases wpage with e | pr
  · dsimp only at h
    simp only [searchExn] at h
    exact absurd h (by decide)
  · dsimp only at h ⊢
    by_cases h200 : pr.status_code ≠ 200
    · rw [if_pos h200] at h
      dsimp only at h
      exact absurd h (by decide)
    · rw [if_neg h200] at h ⊢
      cases hm : (!(findAllCaptures (pys "book_results_item_")
            Char.isDigit pr.text).isEmpty ||
          !(findAllCaptures (pys "docID=")
            (fun c => c ≠ '&' && c ≠ '"' && c ≠ squote) pr.text).isEmpty) with
      | true =>
        simp only [hm, if_true] at h ⊢
        exact dlUrl_iff (fallbackBookId pr.text)
      | false =>
        simp only [hm, Bool.false_eq_true, if_false] at h
        cases hjs : hasInitialState pr.text with
        | true =>
          simp only [hjs, if_true] at h
          exact absurd h (by decide)
        | false =>
          simp only [hjs, Bool.false_eq_true, if_false] at h
          exact absurd h (by decide)

theorem searchMain_found_dl_iff (li1 : Bool) (reqs1 : List ReqTag)
    (title author : PyStr) (w : SearchWorld)
    (h : (searchMain li1 reqs1 title author w).result.status = pys "Found") :
    ((searchMain li1 reqs1 title author w).result.download_url = some [] ↔
      (searchMain li1 reqs1 title author w).result.book_id = some []) := by
  obtain ⟨cw, whome, wsearch, wssoup, wpage, wpsoup⟩ := w
  unfold searchMain at h ⊢
  dsimp only at h ⊢
  rcases whome with e | hr
  · dsimp only at h
    simp only [searchExn] at h
    exact absurd h (by decide)
  · dsimp only at h ⊢
    rcases wsearch with e | sr
    · dsimp only at h
      simp only [searchExn] at h
      exact absurd h (by decide)
    · dsimp only at h ⊢
      by_cases h200 : sr.status_code = 200
      · rw [if_pos h200] at h ⊢
        cases hfil : wssoup.anchors.filter
            (fun l => containsSub (pys "docID=") l.href) with
        | cons fb rest => exact searchTier1Result_dl_iff ..
        | nil =>
          rw [hfil] at h
          exact searchFallback_dl_iff _ _ _ _ _ h
      · rw [if_neg h200] at h ⊢
        exact searchFallback_dl_iff _ _ _ _ _ h

/-- C1 counterexample: the tier-1 page explicitly carries a
`"downloadAvailable": false` marker, yet `search_book` reports Found with a
nonempty `download_url` - the live path never consults the availability
signal. -/
theorem c1_counterexample :
    containsSub (pys "\"downloadAvailable\": false")
      (pys "<a href=\"detail.action?docID=123\">B</a><script>var a = \x7b\"downloadAvailable\": false\x7d;</script>") =
      true ∧
    (search_book false [] [] (pys "T") (pys "A")
      wsNotDownloadable).result.status = pys "Found" ∧
    (search_book false [] [] (pys "T") (pys "A")
        wsNotDownloadable).result.download_url =
      some (pys "https://ebookcentral.proquest.com/lib/ridley/detail.action?docID=123&download=true") ∧
    (search_book false [] [] (pys "T") (pys "A")
        wsNotDownloadable).result.download_url ≠ some [] := by
  refine ⟨by decide, by decide, by decide, by decide⟩

/-- C1 amended: the availability check lives only in the un-called helper
`_parse_api_search_results`, where `downloadAvailable = false` empties
`download_url`; `search_book` itself never consults any availability signal:
its Found results have a nonempty `download_url` exactly when the extracted
`book_id` is nonempty. -/
theorem c1_amended :
    (∀ (j : ApiJson) (st sa : PyStr) (fr : ApiTitle) (rest : List ApiTitle),
      j.titles = fr :: rest → fr.downloadAvailable = false →
      j.totalCount ≠ 0 →
      (parseApiSearchResults j st sa).download_url = some []) ∧
    (∀ (li : Bool) (username password title author : PyStr) (w : SearchWorld),
      (search_book li username password title author w).result.status =
        pys "Found" →
      ((search_book li username password title author w).result.download_url =
          some [] ↔
        (search_book li username password title author w).result.book_id =
          some [])) := by
  constructor
  · intro j st sa fr rest hts hda htc
    rcases j with ⟨tc, ts⟩
    dsimp only at hts htc ⊢
    subst hts
    unfold parseApiSearchResults
    dsimp only
    rw [if_neg htc, hda]
    rfl
  · intro li username password title author w h
    unfold search_book at h ⊢
    by_cases hg : (!username.isEmpty && !password.isEmpty && !li) = true
    · simp only [hg, if_true] at h ⊢
      by_cases hok : (login li w.conn).1 = true
      · simp only [hok, if_true] at h ⊢
        exact searchMain_found_dl_iff _ _ _ _ _ h
      · have hok2 : (login li w.conn).1 = false := Bool.eq_false_iff.mpr hok
        simp only [hok2, Bool.false_eq_true, if_false] at h
        exact absurd h (by decide)
    · have hg2 : (!username.isEmpty && !password.isEmpty && !li) = false :=
        Bool.eq_false_iff.mpr hg
      simp only [hg2, Bool.false_eq_true, if_false] at h ⊢
      exact searchMain_found_dl_iff _ _ _ _ _ h

/-- Closed instance of C1 as amended: the helper empties the URL on
`downloadAvailable = false`, and a Found result of `search_book` keeps
`download_url` and `book_id` empty or nonempty together. -/
theorem c1_amended_witness :
    (parseApiSearchResults jNoDl (pys "T") (pys "A")).download_url =
      some [] ∧
    ((search_book false [] [] (pys "T") (pys "A")
        wsNotDownloadable).result.download_url = some [] ↔
      (search_book false [] [] (pys "T") (pys "A")
        wsNotDownloadable).result.book_id = some []) := by
  exact ⟨c1_amended.1 jNoDl (pys "T") (pys "A") frNoDl [] rfl rfl (by decide),
    c1_amended.2 false [] [] (pys "T") (pys "A") wsNotDownloadable (by decide)⟩

/-! ## Empty tier-1 results -/

/-- C2 counterexample: a tier-1 200 response with no result links does not
terminate the search: `search_book` proceeds to the page-scrape tier (the
`searchPage` request is issued) and here returns status Error, not
Not Found, because that fallback GET yields a 500. -/
theorem c2_counterexample :
    (search_book false [] [] (pys "T") (pys "A") wsPageErr).result.status =
      pys "Error" ∧
    (search_book false [] [] (pys "T") (pys "A") wsPageErr).result.message =
      some (pys "Failed to get search page: 500") ∧
    (search_book false [] [] (pys "T") (pys "A") wsPageErr).reqs =
      [ReqTag.home, ReqTag.searchApi, ReqTag.searchPage] := by
  refine ⟨by decide, by decide, by decide⟩

/-- C2 amended: a tier-1 200 response with no `docID=` links falls through
to the page-scrape fallback (whose outcome, Not Found or Error, becomes the
result); the terminal empty-result Not Found behavior belongs to the
un-called helper `_parse_api_search_results`, which maps `totalCount = 0` or
an empty `titles` list to status Not Found, never Error. -/
theorem c2_amended :
    (∀ (li : Bool) (username password title author : PyStr) (w : SearchWorld)
        (hr sr : HttpResp),
      ((!username.isEmpty && !password.isEmpty && !li) = false ∨
        (test_connection li w.conn).result.success = true) →
      w.homeResp = Except.ok hr → w.searchResp = Except.ok sr →
      sr.status_code = 200 →
      w.searchSoup.anchors.filter
        (fun l => containsSub (pys "docID=") l.href) = [] →
      ∃ li1 reqs1, search_book li username password title author w =
        searchFallback li1 title author w
          (reqs1 ++ [ReqTag.home, ReqTag.searchApi])) ∧
    (∀ (j : ApiJson) (st sa : PyStr), (j.titles = [] ∨ j.totalCount = 0) →
      (parseApiSearchResults j st sa).status = pys "Not Found") := by
  constructor
  · intro li username password title author w hr sr hreach hhr hsr h200 hfil
    have hmain : ∀ li1 reqs1, searchMain li1 reqs1 title author w =
        searchFallback li1 title author w
          (reqs1 ++ [ReqTag.home, ReqTag.searchApi]) := by
      intro li1 reqs1
      unfold searchMain
      rw [hhr, hsr]
      dsimp only
      rw [if_pos h200, hfil]
    by_cases hg : (!username.isEmpty && !password.isEmpty && !li) = true
    · have hok : (test_connection li w.conn).result.success = true := by
        rcases hreach with hf | hok
        · rw [hg] at hf; cases hf
        · exact hok
      refine ⟨(login li w.conn).2.1, (login li w.conn).2.2, ?_⟩
      simp only [search_book, hg, if_true, login, hok]
      exact hmain _ _
    · have hg2 : (!username.isEmpty && !password.isEmpty && !li) = false :=
        Bool.eq_false_iff.mpr hg
      refine ⟨li, [], ?_⟩
      simp only [search_book, hg2, Bool.false_eq_true, if_false]
      exact hmain _ _
  · intro j st sa h
    rcases j with ⟨tc, ts⟩
    dsimp only at h
    unfold parseApiSearchResults
    cases ts with
    | nil => rfl
    | cons fr rest =>
      dsimp only
      rcases h with h | h
      · cases h
      · rw [if_pos h]

/-- Closed instance of C2 as amended: the empty-tier-1 world reaches the
fallback, and an empty API body parses to Not Found. -/
theorem c2_amended_witness :
    (∃ li1 reqs1, search_book false [] [] (pys "T") (pys "A") wsPageErr =
      searchFallback li1 (pys "T") (pys "A") wsPageErr
        (reqs1 ++ [ReqTag.home, ReqTag.searchApi])) ∧
    (parseApiSearchResults jEmpty (pys "T") (pys "A")).status =
      pys "Not Found" := by
  exact ⟨c2_amended.1 false [] [] (pys "T") (pys "A") wsPageErr blankResp
      blankResp (Or.inl (by decide)) rfl rfl (by decide) (by decide),
    c2_amended.2 jEmpty (pys "T") (pys "A") (Or.inl rfl)⟩

/-! ## Files written by the operations -/

/-- C6 counterexample: `search_book` does write a file: when tier 1 yields
no links and the fallback page GET returns 200, the page body is saved to
`search_page.html`. -/
theorem c6_counterexample :
    (search_book false [] [] (pys "T") (pys "A") wsPlainPage).files =
      [(pys "search_page.html", pys "hello")] ∧
    (search_book false [] [] (pys "T") (pys "A") wsPlainPage).result.status =
      pys "Not Found" := by
  refine ⟨by decide, by decide⟩

theorem searchFallback_files (li : Bool) (t a : PyStr) (w : SearchWorld)
    (reqs0 : List ReqTag) :
    ∀ f ∈ (searchFallback li t a w reqs0).files,
      f.1 = pys "search_page.html" := by
  obtain ⟨cw, whome, wsearch, wssoup, wpage, wpsoup⟩ := w
  unfold searchFallback
  dsimp only
  rcases wpage with e | pr
  · intro f hf
    simp [searchExn] at hf
  · dsimp only
    by_cases h200 : pr.status_code ≠ 200
    · rw [if_pos h200]
      intro f hf
      simp at hf
    · rw [if_neg h200]
      intro f hf
      cases hm : (!(findAllCaptures (pys "book_results_item_")
            Char.isDigit pr.text).isEmpty ||
          !(findAllCaptures (pys "docID=")
            (fun c => c ≠ '&' && c ≠ '"' && c ≠ squote) pr.text).isEmpty) with
      | true =>
        simp only [hm, if_true, List.mem_singleton] at hf
        rw [hf]
      | false =>
        simp only [hm, Bool.false_eq_true, if_false] at hf
        cases hjs : hasInitialState pr.text with
        | true =>
          simp only [hjs, if_true, List.mem_singleton] at hf
          rw [hf]
        | false =>
          simp only [hjs, Bool.false_eq_true, if_false,
            List.mem_singleton] at hf
          rw [hf]

theorem searchMain_files (li1 : Bool) (reqs1 : List ReqTag)
    (title author : PyStr) (w : SearchWorld) :
    ∀ f ∈ (searchMain li1 reqs1 title author w).files,
      f.1 = pys "search_page.html" := by
  obtain ⟨cw, whome, wsearch, wssoup, wpage, wpsoup⟩ := w
  unfold searchMain
  dsimp only
  rcases whome with e | hr
  · intro f hf
    simp [searchExn] at hf
  · dsimp only
    rcases wsearch with e | sr
    · intro f hf
      simp [searchExn] at hf
    · dsimp only
      by_cases h200 : sr.status_code = 200
      · rw [if_pos h200]
        cases hfil : wssoup.anchors.filter
            (fun l => containsSub (pys "docID=") l.href) with
        | cons fb rest =>
          intro f hf
          simp at hf
        | nil => exact fun f hf => searchFallback_files _ _ _ _ _ f hf
      · rw [if_neg h200]
        exact fun f hf => searchFallback_files _ _ _ _ _ f hf

theorem dlFetchFile_files (li : Bool) (opath : PyStr) (cb : Bool)
    (fileResp : Net FileResp) (reqs : List ReqTag) :
    ∀ f ∈ (dlFetchFile li opath cb fileResp reqs).files,
      ∃ fr, fileResp = Except.ok fr ∧
        f = (normalizeOutputPath (pyLower fr.contentType) opath,
          fr.chunks.flatten) := by
  unfold dlFetchFile
  rcases fileResp with e | fr
  · intro f hf
    rcases e with ⟨k, m⟩
    cases k <;> simp [dlExn] at hf
  · dsimp only
    by_cases h200 : fr.status_code ≠ 200
    · rw [if_pos h200]
      intro f hf
      simp [dlFail] at hf
    · rw [if_neg h200]
      intro f hf
      simp only [List.mem_singleton] at hf
      exact ⟨fr, rfl, hf⟩

theorem dlMain_files (li1 : Bool) (reqs1 : List ReqTag)
    (durl bid opath : PyStr) (cb : Bool) (w : DlWorld) :
    ∀ f ∈ (dlMain li1 reqs1 durl bid opath cb w).files,
      ∃ fr, w.fileResp = Except.ok fr ∧
        f = (normalizeOutputPath (pyLower fr.contentType) opath,
          fr.chunks.flatten) := by
  obtain ⟨cw, wpage, wform, wconfirm, wlinks, wcform, wfile⟩ := w
  unfold dlMain
  dsimp only
  rcases wpage with e | dp
  · intro f hf
    rcases e with ⟨k, m⟩
    cases k <;> simp [dlExn] at hf
  · dsimp only
    by_cases hs : dp.status_code ≠ 200
    · rw [if_pos hs]
      intro f hf
      simp [dlFail] at hf
    · rw [if_neg hs]
      rcases wform with _ | form
      · intro f hf
        simp [dlFail] at hf
      · dsimp only
        rcases wconfirm with e | cr
        · intro f hf
          rcases e with ⟨k, m⟩
          cases k <;> simp [dlExn] at hf
        · dsimp only
          by_cases hcs : cr.status_code ≠ 200
          · rw [if_pos hcs]
            intro f hf
            simp [dlFail] at hf
          · rw [if_neg hcs]
            cases hl : (!(findDownloadLink wlinks cr.url).isEmpty) with
            | true =>
              simp only [hl, if_true]
              exact fun f hf => dlFetchFile_files _ _ _ _ _ f hf
            | false =>
              simp only [hl, Bool.false_eq_true, if_false]
              rcases wcform with _ | f2
              · intro f hf
                simp [dlFail] at hf
              · dsimp only
                cases ha : (!f2.action.isEmpty) with
                | true =>
                  simp only [ha, if_true]
                  exact fun f hf => dlFetchFile_files _ _ _ _ _ f hf
                | false =>
                  simp only [ha, Bool.false_eq_true, if_false]
                  intro f hf
                  simp [dlFail] at hf

/-- C6 amended: the only file `search_book` ever writes is
`search_page.html` (the fallback page body, written when tier 1 yields no
links and the fallback GET returns 200); `download_book` writes only the
normalized output path, filled with the streamed body. -/
theorem c6_amended :
    (∀ (li : Bool) (username password title author : PyStr) (w : SearchWorld),
      ∀ f ∈ (search_book li username password title author w).files,
        f.1 = pys "search_page.html") ∧
    (∀ (li : Bool) (username password durl bid opath : PyStr) (cb : Bool)
        (w : DlWorld),
      ∀ f ∈ (download_book li username password durl bid opath cb w).files,
        ∃ fr, w.fileResp = Except.ok fr ∧
          f = (normalizeOutputPath (pyLower fr.contentType) opath,
            fr.chunks.flatten)) := by
  constructor
  · intro li username password title author w
    unfold search_book
    by_cases hg : (!username.isEmpty && !password.isEmpty && !li) = true
    · simp only [hg, if_true]
      by_cases hok : (login li w.conn).1 = true
      · simp only [hok, if_true]
        exact fun f hf => searchMain_files _ _ _ _ _ f hf
      · have hok2 : (login li w.conn).1 = false := Bool.eq_false_iff.mpr hok
        simp only [hok2, Bool.false_eq_true, if_false]
        intro f hf
        simp at hf
    · have hg2 : (!username.isEmpty && !password.isEmpty && !li) = false :=
        Bool.eq_false_iff.mpr hg
      simp only [hg2, Bool.false_eq_true, if_false]
      exact fun f hf => searchMain_files _ _ _ _ _ f hf
  · intro li username password durl bid opath cb w
    unfold download_book
    by_cases hg : (!username.isEmpty && !password.isEmpty && !li) = true
    · simp only [hg, if_true]
      by_cases hok : (login li w.conn).1 = true
      · simp only [hok, if_true]
        exact fun f hf => dlMain_files _ _ _ _ _ _ _ f hf
      · have hok2 : (login li w.conn).1 = false := Bool.eq_false_iff.mpr hok
        simp only [hok2, Bool.false_eq_true, if_false]
        intro f hf
        simp at hf
    · have hg2 : (!username.isEmpty && !password.isEmpty && !li) = false :=
        Bool.eq_false_iff.mpr hg
      simp only [hg2, Bool.false_eq_true, if_false]
      exact fun f hf => dlMain_files _ _ _ _ _ _ _ f hf

/-- Closed instance of C6 as amended, at the file-writing worlds. -/
theorem c6_amended_witness :
    (pys "search_page.html", pys "hello").1 = pys "search_page.html" ∧
    (∃ fr, wdOk.fileResp = Except.ok fr ∧
      ((pys "/tmp/book.pdf", ([1, 2, 3, 4] : List Nat)) =
        (normalizeOutputPath (pyLower fr.contentType) (pys "/tmp/book"),
          fr.chunks.flatten))) := by
  exact ⟨c6_amended.1 false [] [] (pys "T") (pys "A") wsPlainPage
      (pys "search_page.html", pys "hello") (by decide),
    c6_amended.2 false [] [] (pys "D") (pys "B") (pys "/tmp/book") false wdOk
      (pys "/tmp/book.pdf", [1, 2, 3, 4]) (by decide)⟩

/-! ## Transport errors -/

/-- C7 counterexample: a timeout inside `search_book` is caught by its
generic handler, which reports the exception text itself - a text that
need not mention a timeout - rather than a "timed out" message. -/
theorem c7_counterexample :
    (search_book false [] [] (pys "T") (pys "A") wsTimeout).result.status =
      pys "Error" ∧
    (search_book false [] [] (pys "T") (pys "A") wsTimeout).result.message =
      some (pys "socket stalled") ∧
    containsSub (pys "timed out") (pys "socket stalled") = false := by
  refine ⟨by decide, by decide, by decide⟩

/-- C7 amended: transport errors on the first request never escape: `login`
returns false with "Connection timed out" (timeout) or
"Connection error (check network)" (connection failure) in the result;
`download_book` (already logged in) maps a timeout to "Download timed out";
`search_book` (already logged in) maps every exception, timeouts included,
to status Error carrying the exception's own text. -/
theorem c7_amended :
    (∀ (li : Bool) (w : ConnWorld) (m : PyStr),
      w.homeResp = Except.error { kind := ExKind.timeout, msg := m } →
      (login li w).1 = false ∧
      (test_connection li w).result.message = pys "Connection timed out") ∧
    (∀ (li : Bool) (w : ConnWorld) (m : PyStr),
      w.homeResp = Except.error { kind := ExKind.connection, msg := m } →
      (login li w).1 = false ∧
      (test_connection li w).result.message =
        pys "Connection error (check network)") ∧
    (∀ (username password durl bid opath : PyStr) (cb : Bool) (w : DlWorld)
        (m : PyStr),
      w.pageResp = Except.error { kind := ExKind.timeout, msg := m } →
      (download_book true username password durl bid opath cb w).success =
        false ∧
      (download_book true username password durl bid opath cb w).message =
        some (pys "Download timed out")) ∧
    (∀ (username password title author : PyStr) (w : SearchWorld) (e : Exn),
      w.homeResp = Except.error e →
      (search_book true username password title author w).result.status =
        pys "Error" ∧
      (search_book true username password title author w).result.message =
        some e.msg) := by
  refine ⟨?_, ?_, ?_, ?_⟩
  · intro li w m h
    unfold login test_connection
    rw [h]
    exact ⟨rfl, rfl⟩
  · intro li w m h
    unfold login test_connection
    rw [h]
    exact ⟨rfl, rfl⟩
  · intro username password durl bid opath cb w m h
    simp only [download_book, Bool.not_true, Bool.and_false,
      Bool.false_eq_true, if_false]
    unfold dlMain
    rw [h]
    exact ⟨rfl, rfl⟩
  · intro username password title author w e h
    simp only [search_book, Bool.not_true, Bool.and_false,
      Bool.false_eq_true, if_false]
    unfold searchMain
    rw [h]
    exact ⟨rfl, rfl⟩

/-- Closed instance of C7 as amended, at concrete error worlds. -/
theorem c7_amended_witness :
    (login false wcTimeout).1 = false ∧
    (test_connection false wcConnErr).result.message =
      pys "Connection error (check network)" ∧
    (download_book true [] [] (pys "D") (pys "B") (pys "O") false
      wdTimeout).message = some (pys "Download timed out") ∧
    (search_book true [] [] (pys "T") (pys "A") wsTimeout).result.message =
      some (pys "socket stalled") := by
  exact ⟨(c7_amended.1 false wcTimeout (pys "t") rfl).1,
    (c7_amended.2.1 false wcConnErr (pys "c") rfl).2,
    (c7_amended.2.2.1 [] [] (pys "D") (pys "B") (pys "O") false wdTimeout
      (pys "x") rfl).2,
    (c7_amended.2.2.2 [] [] (pys "T") (pys "A") wsTimeout
      { kind := ExKind.timeout, msg := pys "socket stalled" } rfl).2⟩

/-- Closed instance of C3 at a failing-login world. -/
theorem c3_login_required_witness :
    (search_book false (pys "u") (pys "p") (pys "T") (pys "A")
      wsLoginFail).result.message = some (pys "Login required") ∧
    (download_book false (pys "u") (pys "p") (pys "D") (pys "B") (pys "O")
      false wdLoginFail).success = false := by
  have h := c3_login_required (pys "u") (pys "p") (pys "T") (pys "A")
    (pys "D") (pys "B") (pys "O") false wsLoginFail wdLoginFail
    (by decide) (by decide) (by decide) (by decide)
  exact ⟨h.1.2.1, h.2.1⟩
